import Mathlib

/-!
# Verification of the ipyparallel launcher layer

A shallow embedding of `ipyparallel/apps/launcher.py` and
`ipyparallel/apps/ipclusterapp.py`: the `BaseLauncher` state machine
(`before` / `running` / `after`, stop-observer callbacks), the
`LocalProcessLauncher` process supervisor, the `LocalEngineSetLauncher`
aggregate, the `BatchSystemLauncher` (batch script templating, job-id
parsing, submit/delete commands) and the ipcluster CLI exit codes.

External effects (spawning a process, the tornado IO loop, files, regular
expression engines) are made explicit: a spawned process is the pid the
caller passes in, scheduled timeouts are returned as data, callbacks are
opaque identifiers and "invoking" a callback is recorded in an invocation
list, compiled regular expressions become `String → Bool` / search
functions carried by the launcher.
-/

namespace IPyParallel

/-- `self.state` of `BaseLauncher`: `'before'`, `'running'` or `'after'`. -/
inductive LState
  | before
  | running
  | after
deriving DecidableEq, Repr

/-- Numeric rank of a launcher state along the intended
`before → running → after` progression. -/
def LState.rank : LState → Nat
  | .before => 0
  | .running => 1
  | .after => 2

/-- The mutable fields of `BaseLauncher.__init__`: `state` starts at
`'before'`, `stop_callbacks` starts empty, `start_data`/`stop_data` are the
`Any()` traits (unset = `none`).  `σ` is the start payload type, `τ` the
stop payload type, `κ` the (opaque) type of callback identifiers. -/
structure BaseLauncher (σ τ κ : Type) where
  state : LState := .before
  start_data : Option σ := none
  stop_data : Option τ := none
  stop_callbacks : List κ := []
deriving DecidableEq, Repr

/-- A freshly constructed launcher. -/
def BaseLauncher.init (σ τ κ : Type) : BaseLauncher σ τ κ := {}

/-- One recorded callback invocation: which callback ran and what payload
it was handed (`on_stop` in state `after` hands over `self.stop_data`,
which may be unset, hence `Option τ`). -/
abbrev Invocation (τ κ : Type) := κ × Option τ

/-- The callback-draining loop of `BaseLauncher.notify_stop`:

    for i in range(len(self.stop_callbacks)):
        d = self.stop_callbacks.pop()
        d(data)

`list.pop()` removes the LAST element, so the loop drains the list from
the back.  The fuel argument is `len(self.stop_callbacks)`, computed once
before the loop.  Returns the remaining list and the callbacks in the
order they were invoked. -/
def drainLoop (κ : Type) : Nat → List κ → List κ × List κ
  | 0, cbs => (cbs, [])
  | n + 1, cbs =>
    match cbs.getLast? with
    | none => (cbs, [])
    | some d =>
      let rest := cbs.dropLast
      let out := drainLoop κ n rest
      (out.1, d :: out.2)

/-- `BaseLauncher.notify_stop(data)`: records `stop_data`, sets the state
to `'after'` and drains the callback list, invoking each drained callback
with `data`.  Returns the updated launcher and the invocations made. -/
def notifyStop {σ τ κ : Type} (l : BaseLauncher σ τ κ) (data : τ) :
    BaseLauncher σ τ κ × List (Invocation τ κ) :=
  let out := drainLoop κ l.stop_callbacks.length l.stop_callbacks
  ({ l with stop_data := some data, state := .after, stop_callbacks := out.1 },
   out.2.map fun c => (c, some data))

/-- `BaseLauncher.notify_start(data)`: records `start_data` and sets the
state to `'running'` (unconditionally — there is no guard). -/
def notifyStart {σ τ κ : Type} (l : BaseLauncher σ τ κ) (data : σ) :
    BaseLauncher σ τ κ :=
  { l with start_data := some data, state := .running }

/-- `BaseLauncher.on_stop(f)`: if already in `'after'`, call `f` at once
with the stored `stop_data` and register nothing; otherwise append `f` to
`stop_callbacks` without calling it. -/
def onStop {σ τ κ : Type} (l : BaseLauncher σ τ κ) (f : κ) :
    BaseLauncher σ τ κ × List (Invocation τ κ) :=
  if l.state = .after then
    (l, [(f, l.stop_data)])
  else
    ({ l with stop_callbacks := l.stop_callbacks ++ [f] }, [])

/-- The exception classes of `launcher.py`. -/
inductive LauncherException
  | launcherError (msg : String)
  | processStateError (msg : String)
deriving DecidableEq, Repr

-- ### LocalProcessLauncher

/-- The POSIX signals used by `launcher.py` (`SIGINT`, `SIGTERM`,
`SIGKILL`). -/
inductive Sig
  | SIGINT
  | SIGTERM
  | SIGKILL
deriving DecidableEq, Repr

/-- The stop payload `dict(exit_code=status, pid=self.process.pid)` built
by `LocalProcessLauncher.poll`. -/
structure ChildStop where
  exit_code : Int
  pid : Nat
deriving DecidableEq, Repr

/-- `LocalProcessLauncher`: the inherited `BaseLauncher` fields (start
payload = the child pid, stop payload = `ChildStop`), the spawned
`self.process` (its pid, `none` before `start`), and `self.killer`, the
timeout scheduled on the IO loop by `interrupt_then_kill` (fire time and
signal), `none` until scheduled. -/
structure LocalProcessLauncher (κ : Type) where
  base : BaseLauncher Nat ChildStop κ := {}
  process : Option Nat := none
  killer : Option (ℚ × Sig) := none
deriving DecidableEq, Repr

/-- The `%r` rendering of `self.state` used in the `ProcessStateError`
message. -/
def LState.pyrepr : LState → String
  | .before => "\x27before\x27"
  | .running => "\x27running\x27"
  | .after => "\x27after\x27"

/-- `LocalProcessLauncher.start()`: only from state `'before'` does it
spawn the process (the spawned pid is the explicit `pid` argument, the
outcome of `Popen`), and call `notify_start(self.process.pid)`; in any
other state it raises
`ProcessStateError('The process was already started and has state: %r')`
and changes nothing. -/
def LocalProcessLauncher.start {κ : Type} (l : LocalProcessLauncher κ)
    (pid : Nat) : LocalProcessLauncher κ × Except LauncherException Nat :=
  if l.base.state = .before then
    ({ l with process := some pid, base := notifyStart l.base pid }, .ok pid)
  else
    (l, .error (.processStateError
      ("The process was already started and has state: " ++ l.base.state.pyrepr)))

/-- `LocalProcessLauncher.signal(sig)`: sends `sig` to `self.process`
only when the state is `'running'`; otherwise it does nothing.  Returns
the list of `(pid, signal)` deliveries actually made. -/
def LocalProcessLauncher.sendSignal {κ : Type} (l : LocalProcessLauncher κ)
    (sig : Sig) : List (Nat × Sig) :=
  if l.base.state = .running then
    match l.process with
    | some pid => [(pid, sig)]
    | none => []
  else []

/-- The default `delay=2.0` (seconds) of
`LocalProcessLauncher.interrupt_then_kill`. -/
def interruptThenKillDefaultDelay : ℚ := 2

/-- `LocalProcessLauncher.interrupt_then_kill(delay)`: sends `SIGINT` at
once (failures are swallowed by a `try/except`), then registers
`self.killer`, a timeout that will fire `signal(SIGKILL)` at
`loop.time() + delay`.  It returns immediately: the launcher's state is
untouched and no stop callback runs.  `now` is `self.loop.time()`. -/
def LocalProcessLauncher.interruptThenKill {κ : Type}
    (l : LocalProcessLauncher κ) (now delay : ℚ) :
    LocalProcessLauncher κ × List (Nat × Sig) :=
  ({ l with killer := some (now + delay, Sig.SIGKILL) },
   l.sendSignal Sig.SIGINT)

/-- `LocalProcessLauncher.stop()`: `return self.interrupt_then_kill()`
with the default 2-second delay. -/
def LocalProcessLauncher.stop {κ : Type} (l : LocalProcessLauncher κ)
    (now : ℚ) : LocalProcessLauncher κ × List (Nat × Sig) :=
  l.interruptThenKill now interruptThenKillDefaultDelay

/-- `LocalProcessLauncher.poll()`: `status` is `self.process.poll()` —
`none` while the child is alive, `some code` once it has exited.  On exit
it calls `notify_stop(dict(exit_code=status, pid=self.process.pid))`,
which is the only place a local launcher transitions to `'after'`.
Returns the updated launcher and the stop-callback invocations made. -/
def LocalProcessLauncher.poll {κ : Type} (l : LocalProcessLauncher κ)
    (status : Option Int) : LocalProcessLauncher κ × List (Invocation ChildStop κ) :=
  match status, l.process with
  | some code, some pid =>
    let out := notifyStop l.base { exit_code := code, pid := pid }
    ({ l with base := out.1 }, out.2)
  | _, _ => (l, [])

-- ### LocalEngineSetLauncher

/-- `LocalEngineSetLauncher`: the aggregate over n child engine
launchers.  `launchers` is the `self.launchers` dict, an
insertion-ordered association of ordinal index to child (a child is
represented by its `process.pid`, the only field
`_notice_engine_stopped` consults).  `stop_data` is redeclared as a
`Dict()` (default `{}`) collecting per-child stop payloads by index;
`start_data` is the `dlist` of child pids returned from `start(n)`. -/
structure LocalEngineSetLauncher (κ : Type) where
  state : LState := .before
  start_data : Option (List Nat) := none
  stop_data : List (Nat × ChildStop) := []
  stop_callbacks : List κ := []
  launchers : List (Nat × Nat) := []
deriving DecidableEq, Repr

/-- `dict[idx] = data` on an insertion-ordered association list: replace
the value when the key is present, append otherwise. -/
def setAssoc {α : Type} : List (Nat × α) → Nat → α → List (Nat × α)
  | [], idx, data => [(idx, data)]
  | kv :: rest, idx, data =>
    if kv.1 = idx then (idx, data) :: rest
    else kv :: setAssoc rest idx data

/-- The lookup loop of `_notice_engine_stopped`:

    for idx, el in iteritems(self.launchers):
        if el.process.pid == pid:
            break

After the loop, `idx` is the key of the first child whose pid matches, or
the last iterated key when none matches (`acc` carries the binding of
`idx` left by previous iterations). -/
def stoppedIdx : List (Nat × Nat) → Nat → Nat → Nat
  | [], _, acc => acc
  | (i, p) :: rest, pid, _ =>
    if p = pid then i else stoppedIdx rest pid i

/-- `notify_stop` of the aggregate (inherited from `BaseLauncher`, with
the engine set's dict-valued stop payload). -/
def notifyStopSet {κ : Type} (es : LocalEngineSetLauncher κ)
    (data : List (Nat × ChildStop)) :
    LocalEngineSetLauncher κ × List (κ × List (Nat × ChildStop)) :=
  let out := drainLoop κ es.stop_callbacks.length es.stop_callbacks
  ({ es with stop_data := data, state := .after, stop_callbacks := out.1 },
   out.2.map fun c => (c, data))

/-- `LocalEngineSetLauncher._notice_engine_stopped(data)`, the `on_stop`
callback registered with every child:

    pid = data['pid']
    for idx, el in iteritems(self.launchers):
        if el.process.pid == pid:
            break
    if self.launchers:
        self.launchers.pop(idx)
        self.stop_data[idx] = data
    else:
        self.notify_stop(self.stop_data)

Returns the updated aggregate and any stop-callback invocations of the
aggregate itself. -/
def noticeEngineStopped {κ : Type} (es : LocalEngineSetLauncher κ)
    (data : ChildStop) :
    LocalEngineSetLauncher κ × List (κ × List (Nat × ChildStop)) :=
  if es.launchers.isEmpty then
    notifyStopSet es es.stop_data
  else
    let idx := stoppedIdx es.launchers data.pid 0
    ({ es with
        launchers := es.launchers.filter fun kv => kv.1 ≠ idx,
        stop_data := setAssoc es.stop_data idx data },
     [])

-- ### Batch script line manipulation

/-- Python `s.split(chr, 1)` on a character list: split at the first
newline.  `none` when the string holds no newline (there Python's
`firstline, rest = template.split(sep, 1)` raises `ValueError`). -/
def splitFirstLineAux : List Char → Option (List Char × List Char)
  | [] => none
  | c :: cs =>
    if c = '\n' then some ([], cs)
    else
      match splitFirstLineAux cs with
      | none => none
      | some fr => some (c :: fr.1, fr.2)

/-- `template.split(chr(10), 1)` on strings. -/
def splitFirstLine (s : String) : Option (String × String) :=
  (splitFirstLineAux s.data).map fun fr => (⟨fr.1⟩, ⟨fr.2⟩)

/-- All lines of a character list (Python `s.split(chr(10))`, full
split). -/
def splitLines : List Char → List (List Char)
  | [] => [[]]
  | c :: cs =>
    match splitLines cs with
    | [] => [[]]
    | l :: ls => if c = '\n' then [] :: l :: ls else (c :: l) :: ls

/-- The line insertion common to `_insert_options_in_script` and
`_insert_job_array_in_script`:

    firstline, rest = self.batch_template.split(chr(10), 1)
    self.batch_template = chr(10).join([firstline, line, rest]) -/
def insertLineAfterFirst (tmpl line : String) : Option String :=
  (splitFirstLine tmpl).map fun fr => fr.1 ++ "\n" ++ line ++ "\n" ++ fr.2

-- ### BatchSystemLauncher

/-- The stop payload `dict(job_id=self.job_id, output=output)` of
`BatchSystemLauncher.stop`. -/
structure BatchStop where
  job_id : String
  output : String
deriving DecidableEq, Repr

/-- `BatchSystemLauncher`: inherited `BaseLauncher` fields (start payload
= the job id, stop payload = `BatchStop`) plus the batch configuration.
Compiled regular expressions are embedded as functions:
`job_id_search output` is `job_id_regexp.search(output)` followed by
`.group(job_id_regexp_group)` (`none` when the search fails), and
`queue_regexp` / `job_array_regexp` are the Boolean
`regexp.search(template) is not None`.  `batch_template_file` is
represented by the contents of the configured template file (`none` when
the trait is unset).  `job_id` is set by `parse_job_id`. -/
structure BatchSystemLauncher (κ : Type) where
  base : BaseLauncher String BatchStop κ := {}
  job_id_search : String → Option String
  job_array_regexp : String → Bool
  queue_regexp : String → Bool
  job_array_template : String := ""
  queue_template : String := ""
  batch_template : String := ""
  batch_template_file : Option String := none
  default_template : String := ""
  queue : String := ""
  n : Nat := 1
  job_id : Option String := none

/-- `BatchSystemLauncher._insert_options_in_script()`:

    if self.queue and not self.queue_regexp.search(self.batch_template):
        firstline, rest = self.batch_template.split(chr(10), 1)
        self.batch_template = chr(10).join([firstline, self.queue_template, rest])

`none` models the `ValueError` on a template without a newline. -/
def insertOptionsInScript {κ : Type} (b : BatchSystemLauncher κ) :
    Option (BatchSystemLauncher κ) :=
  if b.queue ≠ "" ∧ b.queue_regexp b.batch_template = false then
    (insertLineAfterFirst b.batch_template b.queue_template).map
      fun t => { b with batch_template := t }
  else some b

/-- `BatchSystemLauncher._insert_job_array_in_script()`: same insertion,
guarded only by `not self.job_array_regexp.search(self.batch_template)`. -/
def insertJobArrayInScript {κ : Type} (b : BatchSystemLauncher κ) :
    Option (BatchSystemLauncher κ) :=
  if b.job_array_regexp b.batch_template = false then
    (insertLineAfterFirst b.batch_template b.job_array_template).map
      fun t => { b with batch_template := t }
  else some b

/-- The first step of `write_batch_script`: "second priority is
batch_template_file" — when a template file is configured and no
`batch_template` was set, load the template from the file. -/
def selectTemplate {κ : Type} (b : BatchSystemLauncher κ) :
    BatchSystemLauncher κ :=
  if b.batch_template_file.isSome ∧ b.batch_template = "" then
    { b with batch_template := b.batch_template_file.getD "" }
  else b

/-- The "third (last) priority is default_template" assignment of
`write_batch_script`. -/
def useDefaultTemplate {κ : Type} (b : BatchSystemLauncher κ) :
    BatchSystemLauncher κ :=
  { b with batch_template := b.default_template }

/-- `BatchSystemLauncher.write_batch_script(n)`: records `n`; the
template priority is user `batch_template`, then `batch_template_file`,
then `default_template`; the queue and job-array insertions run only in
the `default_template` branch ("*only* when user did not specify a
template").  The final formatter rendering and the write of the script
file are external effects not modelled here; the function returns the
launcher with its final `batch_template`. -/
def writeBatchScript {κ : Type} (b : BatchSystemLauncher κ) (n : Nat) :
    Option (BatchSystemLauncher κ) :=
  if (selectTemplate { b with n := n }).batch_template = "" then
    (insertOptionsInScript (useDefaultTemplate (selectTemplate { b with n := n }))).bind
      insertJobArrayInScript
  else some (selectTemplate { b with n := n })

/-- `BatchSystemLauncher.parse_job_id(output)`: search the submit
output; on a match record and return the job id, otherwise raise
`LauncherError("Job id couldn\x27t be determined: ...")`. -/
def parseJobId {κ : Type} (b : BatchSystemLauncher κ) (output : String) :
    BatchSystemLauncher κ × Except LauncherException String :=
  match b.job_id_search output with
  | some jid => ({ b with job_id := some jid }, .ok jid)
  | none =>
    (b, .error (.launcherError ("Job id couldn\x27t be determined: " ++ output)))

/-- `BatchSystemLauncher.start(n)`: write the batch script, run the
submit command (its decoded stdout is the explicit `submitOutput`
argument), `parse_job_id`, then `notify_start(job_id)`.  When
`parse_job_id` raises, the exception propagates out of `start` —
`notify_start` is not reached and no stop notification is produced. -/
def BatchSystemLauncher.start {κ : Type} (b : BatchSystemLauncher κ)
    (n : Nat) (submitOutput : String) :
    Option (BatchSystemLauncher κ × Except LauncherException String) :=
  (writeBatchScript b n).map fun b1 =>
    let pr := parseJobId b1 submitOutput
    match pr.2 with
    | .ok jid => ({ pr.1 with base := notifyStart pr.1.base jid }, .ok jid)
    | .error e => (pr.1, .error e)

/-- A Python value that is either `bytes` or `str`: both carry their
text here, the tag is what `.decode` dispatches on.  In
`BatchSystemLauncher.stop` the try-branch's `output = out + err` is
`bytes`, while the bare except handler's `output = ""` is a `str`. -/
inductive PyBytesOrStr
  | bytes (text : String)
  | str (text : String)
deriving DecidableEq, Repr

/-- `output.decode(DEFAULT_ENCODING, "replace")` under Python 3 (this
codebase is Python-3-only): `bytes` decode totally thanks to the
replacement policy; a `str` has no `.decode` attribute, so an
`AttributeError` is raised. -/
def pyDecode : PyBytesOrStr → Except String String
  | .bytes text => .ok text
  | .str _ =>
    .error "AttributeError: \x27str\x27 object has no attribute \x27decode\x27"

/-- `BatchSystemLauncher.stop()`: run the delete command.  `deleteOutput`
is its combined stdout+stderr (`bytes`); it is `none` when invoking the
command raised — then the bare `except:` logs and sets `output = ""`, a
`str`.  The following `output.decode(DEFAULT_ENCODING, "replace")` runs
*outside* the `try`: on the except path it raises `AttributeError`,
which propagates to the caller — `notify_stop` is never reached and the
launcher is unchanged; only with a `bytes` output does
`notify_stop(dict(job_id=..., output=...))` run.  `none` overall only
when `self.job_id` was never set (then the attribute access itself
fails, outside this claim set's scope). -/
def BatchSystemLauncher.stop {κ : Type} (b : BatchSystemLauncher κ)
    (deleteOutput : Option String) :
    Option (BatchSystemLauncher κ ×
      Except String (List (Invocation BatchStop κ) × String)) :=
  b.job_id.map fun jid =>
    let output : PyBytesOrStr :=
      match deleteOutput with
      | some o => .bytes o
      | none => .str ""
    match pyDecode output with
    | .ok o =>
      let out := notifyStop b.base { job_id := jid, output := o }
      ({ b with base := out.1 }, .ok (out.2, o))
    | .error e => (b, .error e)

-- ### ipcluster CLI exit codes (ipclusterapp.py)

/-- Exit code when ipcluster appears to be running because a .pid file
with a live pid exists. -/
def ALREADY_STARTED : Nat := 10

/-- Exit code when `ipcluster stop` is run but no usable .pid file is
found (or the recorded pid is dead). -/
def ALREADY_STOPPED : Nat := 11

/-- Exit code when `ipcluster engines` is run but no .pid file is
found. -/
def NO_CLUSTER : Nat := 12

/-- The observable outcome of `IPClusterStop.start`. -/
inductive StopCmdOutcome
  | exited (code : Nat)
  | signalled (pid : Nat)
deriving DecidableEq, Repr

/-- `IPClusterStop.start` (POSIX branch): `pidFile` is the pid recorded
in the profile's .pid file (`none` when reading it raises
`PIDFileError`); `alive` is `self.check_pid`.  No pid file, or a dead
pid, exits with `ALREADY_STOPPED`; a live pid is sent the stop signal. -/
def ipclusterStopApp (pidFile : Option Nat) (alive : Nat → Bool) :
    StopCmdOutcome :=
  match pidFile with
  | none => .exited ALREADY_STOPPED
  | some pid =>
    if alive pid then .signalled pid else .exited ALREADY_STOPPED

/-- The pid-file check at the top of `IPClusterStart.start`: returns
`some code` when the app exits immediately (cluster already running),
`none` when startup proceeds (no pid file, or a stale one, which is
removed). -/
def ipclusterStartCheck (pidFile : Option Nat) (alive : Nat → Bool) :
    Option Nat :=
  match pidFile with
  | none => none
  | some pid => if alive pid then some ALREADY_STARTED else none

-- ### The launcher operation machine (for the monotonicity invariant)

/-- The operations of the launcher contract, as listed by the spec:
`start`, `stop`, `signal`, `notify_start`, `notify_stop`, `on_stop`. -/
inductive LauncherOp (κ : Type)
  | opStart (pid : Nat)
  | opStop (now : ℚ)
  | opSignal (sig : Sig)
  | opNotifyStart (pid : Nat)
  | opNotifyStop (d : ChildStop)
  | opOnStop (cb : κ)

/-- Whether an operation is a direct `notify_start` call (one not routed
through `start`'s state guard). -/
def LauncherOp.isDirectNotifyStart {κ : Type} : LauncherOp κ → Bool
  | .opNotifyStart _ => true
  | _ => false

/-- Apply one operation to a `LocalProcessLauncher` (outputs — signals
sent, exceptions raised, callbacks invoked — are projected away; only
the resulting launcher is kept).  `signal` and a failed `start` leave
the launcher untouched; `stop` only schedules the kill timeout. -/
def applyOp {κ : Type} (l : LocalProcessLauncher κ) :
    LauncherOp κ → LocalProcessLauncher κ
  | .opStart pid => (l.start pid).1
  | .opStop now => (l.stop now).1
  | .opSignal _ => l
  | .opNotifyStart pid => { l with base := notifyStart l.base pid }
  | .opNotifyStop d => { l with base := (notifyStop l.base d).1 }
  | .opOnStop cb => { l with base := (onStop l.base cb).1 }

/-- Run a sequence of operations left to right. -/
def runOps {κ : Type} (l : LocalProcessLauncher κ)
    (ops : List (LauncherOp κ)) : LocalProcessLauncher κ :=
  ops.foldl applyOp l

-- ### A model of the PBS job-id regular expression

/-- The longest run of decimal digits at the head of the list. -/
def digitRun : List Char → List Char
  | [] => []
  | c :: cs => if c.isDigit then c :: digitRun cs else []

/-- `re.search` for the pattern of one-or-more digits: the first maximal
digit run, if any. -/
def digitSearchAux : List Char → Option (List Char)
  | [] => none
  | c :: cs => if c.isDigit then some (c :: digitRun cs) else digitSearchAux cs

/-- The PBS `job_id_regexp` (one-or-more digits, match group 0) as a
search function on strings. -/
def digitSearch (s : String) : Option String :=
  (digitSearchAux s.data).map fun l => ⟨l⟩

-- ### Concrete instances used to evaluate the model

/-- A launcher already in `after` with a stored stop payload and a
drained callback list (the situation `notify_stop` leaves behind). -/
def lAfterEx : BaseLauncher Nat Nat Nat := { state := .after, stop_data := some 9 }

/-- A freshly constructed launcher. -/
def lBeforeEx : BaseLauncher Nat Nat Nat := {}

/-- A running launcher with two stop callbacks, registered as callback 0
first, callback 1 second. -/
def lTwoCallbacks : BaseLauncher Nat Nat Nat :=
  { state := .running, stop_callbacks := [0, 1] }

/-- A fresh local process launcher. -/
def lpBefore : LocalProcessLauncher Nat := {}

/-- A local process launcher supervising a running process with pid 3. -/
def lpRunning : LocalProcessLauncher Nat :=
  { base := { state := .running, start_data := some 3 }, process := some 3 }

/-- A local process launcher supervising a running process with pid 11,
with one registered stop callback. -/
def lpRun11 : LocalProcessLauncher Nat :=
  { base := { state := .running, start_data := some 11, stop_callbacks := [4] },
    process := some 11 }

/-- A running engine set whose mapping holds exactly one remaining child
(index 0, pid 7), with one registered aggregate stop callback. -/
def esOneChild : LocalEngineSetLauncher Nat :=
  { state := .running, start_data := some [7], launchers := [(0, 7)],
    stop_callbacks := [1] }

/-- A started PBS-flavoured batch launcher (job id 42) with two stop
callbacks. -/
def b42 : BatchSystemLauncher Nat :=
  { base := { state := .running, start_data := some "42", stop_callbacks := [0, 1] },
    job_id_search := digitSearch,
    job_array_regexp := fun _ => false,
    queue_regexp := fun _ => false,
    job_id := some "42" }

/-- A PBS-flavoured batch launcher with a user-configured two-line batch
template (and no job-array/queue directive in it). -/
def bUserTemplate : BatchSystemLauncher Nat :=
  { job_id_search := digitSearch,
    job_array_regexp := fun _ => false,
    queue_regexp := fun _ => false,
    batch_template := "#!/bin/sh\nsleep 1" }

/-- A PBS-flavoured batch launcher configured with `queue="gpu"` and a
user-specified template that lacks a queue directive (its queue regular
expression matches nowhere in that template). -/
def bUserQueue : BatchSystemLauncher Nat :=
  { job_id_search := digitSearch,
    job_array_regexp := fun _ => false,
    queue_regexp := fun _ => false,
    queue := "gpu",
    queue_template := "#PBS -q {queue}",
    batch_template := "#!/bin/sh\nsleep 1" }

/-- A PBS-flavoured batch launcher configured with `queue="gpu"` and no
user template, so the default template is used. -/
def bDefaultQueue : BatchSystemLauncher Nat :=
  { job_id_search := digitSearch,
    job_array_regexp := fun _ => true,
    queue_regexp := fun _ => false,
    queue := "gpu",
    queue_template := "#PBS -q {queue}",
    default_template := "#!/bin/sh\n#PBS -V\ncmd" }

/-- A batch launcher whose template already carries a queue directive
(the queue regular expression matches it). -/
def bQueuePresent : BatchSystemLauncher Nat :=
  { job_id_search := digitSearch,
    job_array_regexp := fun _ => false,
    queue_regexp := fun _ => true,
    queue := "gpu",
    queue_template := "#PBS -q {queue}",
    batch_template := "#PBS -q gpu\ncmd" }

/-- A liveness oracle under which only pid 5 is alive. -/
def aliveEx : Nat → Bool := fun p => p == 5

/-- A sequence of launcher operations with no direct `notify_start`
call. -/
def safeOpsEx : List (LauncherOp Nat) :=
  [.opStart 3, .opSignal .SIGINT, .opStop 0,
   .opNotifyStop { exit_code := 0, pid := 3 }, .opOnStop 1]

-- ### Helper lemmas

theorem drainLoop_length {κ : Type} (cbs : List κ) :
    drainLoop κ cbs.length cbs = ([], cbs.reverse) := by
  suffices h : ∀ (n : Nat) (l : List κ), l.length = n →
      drainLoop κ n l = ([], l.reverse) from h _ cbs rfl
  intro n
  induction n with
  | zero =>
    intro l hl
    rw [List.length_eq_zero] at hl
    subst hl
    rfl
  | succ n ih =>
    intro l hl
    rcases l.eq_nil_or_concat with rfl | ⟨L, b, rfl⟩
    · simp at hl
    · have hL : L.length = n := by
        simpa using hl
      rw [List.concat_eq_append] at hl ⊢
      simp only [drainLoop, List.getLast?_concat, List.dropLast_concat,
        ih L hL, List.reverse_append, List.reverse_cons, List.reverse_nil,
        List.nil_append, List.singleton_append]

/-- `notify_stop` fully drains the callback list and invokes the drained
callbacks in reverse registration order. -/
theorem notifyStop_eq {σ τ κ : Type} (l : BaseLauncher σ τ κ) (data : τ) :
    notifyStop l data =
      ({ l with stop_data := some data, state := .after, stop_callbacks := [] },
       l.stop_callbacks.reverse.map fun c => (c, some data)) := by
  simp [notifyStop, drainLoop_length]

theorem splitFirstLineAux_spec :
    ∀ {l f r : List Char}, splitFirstLineAux l = some (f, r) →
      l = f ++ '\n' :: r ∧ '\n' ∉ f := by
  intro l
  induction l with
  | nil => intro f r h; simp [splitFirstLineAux] at h
  | cons c cs ih =>
    intro f r h
    by_cases hc : c = '\n'
    · subst hc
      simp [splitFirstLineAux] at h
      obtain ⟨rfl, rfl⟩ := h
      simp
    · simp only [splitFirstLineAux, if_neg hc] at h
      cases hcs : splitFirstLineAux cs with
      | none => rw [hcs] at h; simp at h
      | some fr =>
        rw [hcs] at h
        simp at h
        obtain ⟨rfl, rfl⟩ := h
        obtain ⟨h1, h2⟩ := ih hcs
        constructor
        · simp [h1]
        · simp [h2, Ne.symm hc]

theorem splitLines_ne_nil : ∀ (l : List Char), splitLines l ≠ [] := by
  intro l
  cases l with
  | nil => simp [splitLines]
  | cons c cs =>
    simp only [splitLines]
    cases splitLines cs with
    | nil => simp
    | cons x xs =>
      by_cases hc : c = '\n' <;> simp [hc]

theorem splitLines_insert {f : List Char} (hf : '\n' ∉ f) (r : List Char) :
    splitLines (f ++ '\n' :: r) = f :: splitLines r := by
  induction f with
  | nil =>
    simp only [List.nil_append, splitLines]
    cases hs : splitLines r with
    | nil => exact absurd hs (splitLines_ne_nil r)
    | cons x xs => simp
  | cons c cs ih =>
    have hc : c ≠ '\n' := fun h => hf (h ▸ List.mem_cons_self c cs)
    have hcs : '\n' ∉ cs := fun h => hf (List.mem_cons_of_mem c h)
    simp only [List.cons_append, List.append_eq, splitLines, ih hcs, if_neg hc]

theorem data_append (a b : String) : (a ++ b).data = a.data ++ b.data := rfl

theorem insertOptionsInScript_base {κ : Type} {b b1 : BatchSystemLauncher κ}
    (h : insertOptionsInScript b = some b1) : b1.base = b.base := by
  unfold insertOptionsInScript at h
  split at h
  · cases hins : insertLineAfterFirst b.batch_template b.queue_template with
    | none => rw [hins] at h; simp at h
    | some t => rw [hins] at h; simp at h; rw [← h]
  · simp at h; rw [← h]

theorem insertJobArrayInScript_base {κ : Type} {b b1 : BatchSystemLauncher κ}
    (h : insertJobArrayInScript b = some b1) : b1.base = b.base := by
  unfold insertJobArrayInScript at h
  split at h
  · cases hins : insertLineAfterFirst b.batch_template b.job_array_template with
    | none => rw [hins] at h; simp at h
    | some t => rw [hins] at h; simp at h; rw [← h]
  · simp at h; rw [← h]

theorem selectTemplate_base {κ : Type} (b : BatchSystemLauncher κ) :
    (selectTemplate b).base = b.base := by
  unfold selectTemplate
  split <;> rfl

theorem useDefaultTemplate_base {κ : Type} (b : BatchSystemLauncher κ) :
    (useDefaultTemplate b).base = b.base := rfl

theorem writeBatchScript_base {κ : Type} {b b1 : BatchSystemLauncher κ}
    {n : Nat} (h : writeBatchScript b n = some b1) : b1.base = b.base := by
  unfold writeBatchScript at h
  have hsb : (selectTemplate { b with n := n }).base = b.base :=
    selectTemplate_base _
  split at h
  · cases hopt : insertOptionsInScript
        (useDefaultTemplate (selectTemplate { b with n := n })) with
    | none => rw [hopt] at h; simp at h
    | some bq =>
      rw [hopt] at h
      simp only [Option.some_bind] at h
      have h1 := insertJobArrayInScript_base h
      have h2 := insertOptionsInScript_base hopt
      rw [h1, h2, useDefaultTemplate_base]
      exact hsb
  · simp only [Option.some.injEq] at h
    rw [← h]
    exact hsb

theorem rank_le_two (s : LState) : s.rank ≤ 2 := by
  cases s <;> simp [LState.rank]

theorem onStop_state {σ τ κ : Type} (l : BaseLauncher σ τ κ) (f : κ) :
    (onStop l f).1.state = l.state := by
  unfold onStop
  split <;> rfl

theorem rank_le_applyOp {κ : Type} (l : LocalProcessLauncher κ)
    (op : LauncherOp κ) (h : op.isDirectNotifyStart = false) :
    l.base.state.rank ≤ ((applyOp l op).base.state).rank := by
  cases op with
  | opStart pid =>
    simp only [applyOp, LocalProcessLauncher.start]
    split
    · next hb => rw [hb]; simp [notifyStart, LState.rank]
    · exact le_refl _
  | opStop now => exact le_refl _
  | opSignal sig => exact le_refl _
  | opNotifyStart pid => simp [LauncherOp.isDirectNotifyStart] at h
  | opNotifyStop d =>
    simp only [applyOp, notifyStop]
    exact rank_le_two _
  | opOnStop cb =>
    simp only [applyOp, onStop_state]
    exact le_refl _

-- ### Claim theorems

/-- C2: for a launcher already in `after`, `on_stop(f)` invokes `f`
synchronously exactly once with the stored stop payload and leaves the
launcher unchanged, so a subsequent stop notification invokes exactly
the previously registered callbacks and never `f` again; for a launcher
not yet in `after`, `on_stop(f)` registers `f` without invoking it. -/
theorem onStop_after_invokes_once {σ τ κ : Type}
    (l : BaseLauncher σ τ κ) (f : κ) :
    (l.state = .after →
      onStop l f = (l, [(f, l.stop_data)]) ∧
      ∀ d, (notifyStop (onStop l f).1 d).2 =
        l.stop_callbacks.reverse.map fun c => (c, some d)) ∧
    (l.state ≠ .after →
      onStop l f = ({ l with stop_callbacks := l.stop_callbacks ++ [f] }, [])) := by
  constructor
  · intro h
    constructor
    · simp [onStop, h]
    · intro d
      simp [onStop, h, notifyStop_eq]
  · intro h
    simp [onStop, h]

/-- C2 witness: on `lAfterEx` (state `after`, stored payload 9) the
callback runs once, immediately, with payload 9, and a later
`notify_stop` invokes nothing; on `lBeforeEx` it is only registered. -/
theorem onStop_after_invokes_once_witness :
    onStop lAfterEx 5 = (lAfterEx, [(5, some 9)]) ∧
    (notifyStop (onStop lAfterEx 5).1 7).2 = [] ∧
    onStop lBeforeEx 5 = ({ lBeforeEx with stop_callbacks := [5] }, []) := by
  refine ⟨((onStop_after_invokes_once lAfterEx 5).1 rfl).1, ?_, ?_⟩
  · have h := ((onStop_after_invokes_once lAfterEx 5).1 rfl).2 7
    simpa using h
  · exact (onStop_after_invokes_once lBeforeEx 5).2 (by decide)

/-- C3 counterexample: with callbacks registered in the order 0 then 1,
`notify_stop` invokes 1 first — the invocation order is the reverse of
registration order (`stop_callbacks.pop()` pops from the end), so the
claimed registration order is false. -/
theorem notifyStop_order_counterexample :
    ((notifyStop lTwoCallbacks 7).2.map Prod.fst = [1, 0]) ∧
    ([1, 0] ≠ ([0, 1] : List Nat)) := by
  constructor
  · rfl
  · decide

/-- C3 amended: when `notify_stop` runs, every registered stop callback
is invoked exactly once with the stop payload — in reverse registration
order — the callback list is cleared, and a repeated `notify_stop`
invokes no callback. -/
theorem notifyStop_drains_once {σ τ κ : Type} (l : BaseLauncher σ τ κ)
    (d d2 : τ) :
    notifyStop l d =
      ({ l with stop_data := some d, state := .after, stop_callbacks := [] },
       l.stop_callbacks.reverse.map fun c => (c, some d)) ∧
    ((notifyStop l d).2.map Prod.fst).Perm l.stop_callbacks ∧
    (notifyStop (notifyStop l d).1 d2).2 = [] := by
  refine ⟨notifyStop_eq l d, ?_, ?_⟩
  · rw [notifyStop_eq]
    show ((l.stop_callbacks.reverse.map fun c => (c, some d)).map Prod.fst).Perm
      l.stop_callbacks
    rw [List.map_map]
    show (l.stop_callbacks.reverse.map id).Perm l.stop_callbacks
    rw [List.map_id]
    exact l.stop_callbacks.reverse_perm
  · rw [notifyStop_eq, notifyStop_eq]
    simp

/-- C4: a local-process launcher's `start()` succeeds only from
`before`, spawning the process and moving to `running`; from any other
state it raises `ProcessStateError` reporting the process was already
started, and the launcher is unchanged. -/
theorem localStart_guard {κ : Type} (l : LocalProcessLauncher κ)
    (pid : Nat) :
    (l.base.state = .before →
      l.start pid =
        ({ l with process := some pid, base := notifyStart l.base pid }, .ok pid) ∧
      (l.start pid).1.base.state = .running) ∧
    (l.base.state ≠ .before →
      l.start pid = (l, .error (.processStateError
        ("The process was already started and has state: " ++ l.base.state.pyrepr)))) := by
  constructor
  · intro h
    constructor
    · simp [LocalProcessLauncher.start, h]
    · simp [LocalProcessLauncher.start, h, notifyStart]
  · intro h
    simp [LocalProcessLauncher.start, h]

/-- C4 witness: starting the fresh launcher `lpBefore` succeeds and
leaves it `running`; starting the already-running `lpRunning` raises
`ProcessStateError` and changes nothing. -/
theorem localStart_guard_witness :
    lpBefore.start 3 =
      ({ lpBefore with process := some 3, base := notifyStart lpBefore.base 3 }, .ok 3) ∧
    (lpBefore.start 3).1.base.state = .running ∧
    lpRunning.start 4 = (lpRunning, .error (.processStateError
      ("The process was already started and has state: " ++ LState.pyrepr .running))) := by
  refine ⟨((localStart_guard lpBefore 3).1 rfl).1,
    ((localStart_guard lpBefore 3).1 rfl).2, ?_⟩
  exact (localStart_guard lpRunning 4).2 (by decide)

/-- C1 (code evaluation): a child's stop notification delivered while
the mapping is non-empty — which every genuine child stop notification
is, including the last remaining child's — never fires the aggregate's
`notify_stop`: the aggregate's state and callback list are untouched and
no aggregate stop callback is invoked.  The branch that would call
`notify_stop` requires `self.launchers` to already be empty *before* the
child is removed, so the aggregate never transitions to `after`. -/
theorem noticeEngineStopped_no_aggregate_stop
    (es : LocalEngineSetLauncher Nat) (data : ChildStop)
    (h : es.launchers ≠ []) :
    (noticeEngineStopped es data).1.state = es.state ∧
    (noticeEngineStopped es data).1.stop_callbacks = es.stop_callbacks ∧
    (noticeEngineStopped es data).2 = [] := by
  have hne : es.launchers.isEmpty = false := by
    cases hl : es.launchers with
    | nil => exact absurd hl h
    | cons x xs => rfl
  simp [noticeEngineStopped, hne]

/-- C1 witness (the failing input): the engine set `esOneChild` holds a
single remaining child (index 0, pid 7) and is `running`; after the
child's stop notification arrives the child has been removed, the
mapping is empty and the stop data recorded — yet the aggregate is still
`running` and no stop callback fired, where the claim requires state
`after`. -/
theorem noticeEngineStopped_no_aggregate_stop_witness :
    (noticeEngineStopped esOneChild { exit_code := 0, pid := 7 }).1.state =
      LState.running ∧
    (noticeEngineStopped esOneChild { exit_code := 0, pid := 7 }).1.launchers = [] ∧
    (noticeEngineStopped esOneChild { exit_code := 0, pid := 7 }).1.stop_data =
      [(0, { exit_code := 0, pid := 7 })] ∧
    (noticeEngineStopped esOneChild { exit_code := 0, pid := 7 }).2 = [] := by
  have h := noticeEngineStopped_no_aggregate_stop esOneChild
    { exit_code := 0, pid := 7 } (by decide)
  exact ⟨h.1, by decide, by decide, h.2.2⟩

/-- C7: `stop()` on a local-process launcher returns at once with the
launcher's `BaseLauncher` half untouched (no state change, no callback
invoked — termination is not observed synchronously): it sends `SIGINT`
immediately and schedules `SIGKILL` after the default grace delay of
exactly 2 seconds; only a later `poll()` observing the exit calls
`notify_stop` and moves the launcher to `after`. -/
theorem localStop_fire_and_forget (l : LocalProcessLauncher Nat)
    (now : ℚ) (pid : Nat)
    (hrun : l.base.state = .running) (hp : l.process = some pid) :
    l.stop now =
      ({ l with killer := some (now + interruptThenKillDefaultDelay, Sig.SIGKILL) },
       [(pid, Sig.SIGINT)]) ∧
    interruptThenKillDefaultDelay = 2 ∧
    (l.stop now).1.base = l.base ∧
    ∀ code : Int, ((l.stop now).1.poll (some code)).1.base.state = .after := by
  refine ⟨?_, rfl, rfl, ?_⟩
  · simp [LocalProcessLauncher.stop, LocalProcessLauncher.interruptThenKill,
      LocalProcessLauncher.sendSignal, hrun, hp]
  · intro code
    show ((({ l with killer := some (now + interruptThenKillDefaultDelay, Sig.SIGKILL) } :
      LocalProcessLauncher Nat)).poll (some code)).1.base.state = .after
    unfold LocalProcessLauncher.poll
    rw [show ({ l with killer := some (now + interruptThenKillDefaultDelay, Sig.SIGKILL) } :
      LocalProcessLauncher Nat).process = some pid from hp]
    simp [notifyStop_eq]

/-- C7 witness: stopping the running launcher `lpRun11` at time 0 sends
`SIGINT` to pid 11 now, schedules `SIGKILL` at time 0 + 2, leaves the
base state `running`, and a later `poll` observing exit code 0 reaches
`after`. -/
theorem localStop_fire_and_forget_witness :
    lpRun11.stop 0 =
      ({ lpRun11 with killer := some (0 + interruptThenKillDefaultDelay, Sig.SIGKILL) },
       [(11, Sig.SIGINT)]) ∧
    (lpRun11.stop 0).1.base = lpRun11.base ∧
    ((lpRun11.stop 0).1.poll (some 0)).1.base.state = .after := by
  refine ⟨(localStop_fire_and_forget lpRun11 0 11 rfl rfl).1,
    (localStop_fire_and_forget lpRun11 0 11 rfl rfl).2.2.1,
    (localStop_fire_and_forget lpRun11 0 11 rfl rfl).2.2.2 0⟩

/-- C8: `ipcluster stop` with no pid file or a dead pid exits with
`ALREADY_STOPPED` (11); `ipcluster start` finding a live recorded pid
exits with `ALREADY_STARTED` (10); the two are distinct from each other
and from the normal exit status 0. -/
theorem ipcluster_exit_codes (alive : Nat → Bool) (pid : Nat) :
    ipclusterStopApp none alive = .exited ALREADY_STOPPED ∧
    (alive pid = false →
      ipclusterStopApp (some pid) alive = .exited ALREADY_STOPPED) ∧
    (alive pid = true →
      ipclusterStartCheck (some pid) alive = some ALREADY_STARTED) ∧
    ALREADY_STOPPED ≠ ALREADY_STARTED ∧
    ALREADY_STARTED ≠ 0 ∧ ALREADY_STOPPED ≠ 0 := by
  refine ⟨rfl, ?_, ?_, by decide, by decide, by decide⟩
  · intro h
    simp [ipclusterStopApp, h]
  · intro h
    simp [ipclusterStartCheck, h]

/-- C8 witness: with only pid 5 alive, stopping a cluster recorded with
dead pid 3 exits `ALREADY_STOPPED`, and starting over a pid file
recording live pid 5 exits `ALREADY_STARTED`. -/
theorem ipcluster_exit_codes_witness :
    ipclusterStopApp (some 3) aliveEx = .exited ALREADY_STOPPED ∧
    ipclusterStartCheck (some 5) aliveEx = some ALREADY_STARTED := by
  exact ⟨(ipcluster_exit_codes aliveEx 3).2.1 rfl,
    (ipcluster_exit_codes aliveEx 5).2.2.1 rfl⟩

/-- C9 counterexample: the operation sequence
`[notify_stop, notify_start]` — both operations from the claim's own
list — takes a fresh launcher from `before` to `after` and then *back*
to `running`: `notify_start` is unguarded, so launcher state transitions
are not monotonic over all sequences of the listed operations. -/
theorem launcher_ops_backward_counterexample :
    (runOps lpBefore [LauncherOp.opNotifyStop { exit_code := 0, pid := 7 }]).base.state =
      LState.after ∧
    (runOps lpBefore [LauncherOp.opNotifyStop { exit_code := 0, pid := 7 },
        LauncherOp.opNotifyStart 5]).base.state = LState.running := by
  exact ⟨rfl, rfl⟩

/-- C9 amended: launcher state transitions are monotonic along
`before → running → after` for every sequence of the operations `start`,
`stop`, `signal`, `notify_stop`, `on_stop` — i.e. every sequence with no
*direct* `notify_start` call (in a local-process launcher `notify_start`
runs only under `start`'s `before` guard); a direct `notify_start` on a
launcher in `after` is the one operation that moves the state
backward. -/
theorem launcher_ops_monotone (l : LocalProcessLauncher Nat)
    (ops : List (LauncherOp Nat))
    (h : ∀ op ∈ ops, op.isDirectNotifyStart = false) :
    l.base.state.rank ≤ (runOps l ops).base.state.rank := by
  induction ops generalizing l with
  | nil => exact le_refl _
  | cons op rest ih =>
    have h1 : op.isDirectNotifyStart = false := h op (List.mem_cons_self _ _)
    have h2 : ∀ o ∈ rest, o.isDirectNotifyStart = false :=
      fun o ho => h o (List.mem_cons_of_mem _ ho)
    calc l.base.state.rank
        ≤ (applyOp l op).base.state.rank := rank_le_applyOp l op h1
      _ ≤ (runOps (applyOp l op) rest).base.state.rank := ih _ h2

/-- C9 witness: along the concrete guard-respecting sequence
`[start, signal, stop, notify_stop, on_stop]` the state rank never
decreases. -/
theorem launcher_ops_monotone_witness :
    lpBefore.base.state.rank ≤ (runOps lpBefore safeOpsEx).base.state.rank := by
  exact launcher_ops_monotone lpBefore safeOpsEx (by decide)

/-- C10 (code evaluation): for a started batch launcher, when invoking
the delete command raises, the bare except handler leaves `output = ""`
— a `str` — and the decode that follows (it sits outside the `try`)
raises `AttributeError` before `notify_stop` is reached: the exception
propagates to `stop()`'s caller and the launcher is unchanged — no
transition to `after`, no callback invoked, no stop payload recorded —
contrary to the claim.  Only a successful delete command reaches
`notify_stop`, which then delivers the notification exactly once with
the decoded output and moves the launcher to `after`. -/
theorem batchStop_delete_failure_raises (b : BatchSystemLauncher Nat)
    (jid : String) (h : b.job_id = some jid) :
    BatchSystemLauncher.stop b none =
      some (b, .error
        "AttributeError: \x27str\x27 object has no attribute \x27decode\x27") ∧
    ∀ o : String, BatchSystemLauncher.stop b (some o) =
      some ({ b with base := { b.base with
            stop_data := some { job_id := jid, output := o },
            state := .after, stop_callbacks := [] } },
        .ok (b.base.stop_callbacks.reverse.map
          (fun c => (c, some { job_id := jid, output := o })), o)) := by
  constructor
  · unfold BatchSystemLauncher.stop
    rw [h, Option.map_some']
    rfl
  · intro o
    unfold BatchSystemLauncher.stop
    rw [h, Option.map_some']
    simp [pyDecode, notifyStop_eq]

/-- C10 witness (the failing input): stopping the started launcher `b42`
when the delete command raises yields the `AttributeError` with `b42`
returned unchanged — still `running`, both callbacks still registered,
no stop payload — while a successful delete with output `gone` notifies
both callbacks and reaches `after`. -/
theorem batchStop_delete_failure_raises_witness :
    BatchSystemLauncher.stop b42 none =
      some (b42, .error
        "AttributeError: \x27str\x27 object has no attribute \x27decode\x27") ∧
    BatchSystemLauncher.stop b42 (some "gone") =
      some ({ b42 with base := { b42.base with
            stop_data := some { job_id := "42", output := "gone" },
            state := .after, stop_callbacks := [] } },
        .ok ([(1, some { job_id := "42", output := "gone" }),
              (0, some { job_id := "42", output := "gone" })], "gone")) := by
  constructor
  · exact (batchStop_delete_failure_raises b42 "42" rfl).1
  · have hsucc := (batchStop_delete_failure_raises b42 "42" rfl).2 "gone"
    simpa using hsucc

/-- When the queue is non-empty and the queue regular expression does
not match, `_insert_options_in_script` rewrites the template to
first line, queue directive, rest — i.e. the directive is inserted
exactly once, immediately after the first line (witnessed at the level
of the template's line list). -/
theorem insertOptions_inserts {κ : Type} (b : BatchSystemLauncher κ)
    (f r : List Char)
    (h3 : b.queue ≠ "") (h4 : b.queue_regexp b.batch_template = false)
    (h5 : splitFirstLineAux b.batch_template.data = some (f, r))
    (h6 : '\n' ∉ b.queue_template.data) :
    insertOptionsInScript b = some
      { b with batch_template :=
          (⟨f⟩ : String) ++ "\n" ++ b.queue_template ++ "\n" ++ (⟨r⟩ : String) } ∧
    splitLines ((⟨f⟩ : String) ++ "\n" ++ b.queue_template ++ "\n" ++
        (⟨r⟩ : String)).data =
      f :: b.queue_template.data :: splitLines r ∧
    splitLines b.batch_template.data = f :: splitLines r := by
  obtain ⟨hdata, hnf⟩ := splitFirstLineAux_spec h5
  refine ⟨?_, ?_, ?_⟩
  · unfold insertOptionsInScript
    rw [if_pos ⟨h3, h4⟩]
    unfold insertLineAfterFirst splitFirstLine
    rw [h5]
    rfl
  · have hd : ((⟨f⟩ : String) ++ "\n" ++ b.queue_template ++ "\n" ++
        (⟨r⟩ : String)).data =
        f ++ '\n' :: (b.queue_template.data ++ '\n' :: r) := by
      simp [data_append, List.append_assoc]
    rw [hd, splitLines_insert hnf, splitLines_insert h6]
  · rw [hdata, splitLines_insert hnf]

/-- C5 amended: queue insertion applies only when no user template is
configured (then the backend default template is in effect); in that
case the insertion step of `write_batch_script` inserts the queue
directive exactly once, immediately after the default template's first
line (the template's line list becomes first line, directive, remaining
lines, with the original lines otherwise untouched); when a user
template is configured, or the queue is empty, or a queue directive is
already present, queue insertion leaves the template unchanged. -/
theorem queue_insertion_default_template {κ : Type}
    (b : BatchSystemLauncher κ) (n : Nat) (f r : List Char) :
    (b.batch_template = "" → b.batch_template_file = none → b.queue ≠ "" →
      b.queue_regexp b.default_template = false →
      splitFirstLineAux b.default_template.data = some (f, r) →
      '\n' ∉ b.queue_template.data →
      ∃ bq, insertOptionsInScript
          (useDefaultTemplate (selectTemplate { b with n := n })) = some bq ∧
        splitLines bq.batch_template.data =
          f :: b.queue_template.data :: splitLines r ∧
        splitLines b.default_template.data = f :: splitLines r ∧
        writeBatchScript b n = insertJobArrayInScript bq) ∧
    ((b.queue = "" ∨ b.queue_regexp b.batch_template = true) →
      insertOptionsInScript b = some b) := by
  constructor
  · intro h1 h2 h3 h4 h5 h6
    have hsel : selectTemplate { b with n := n } = { b with n := n } := by
      simp [selectTemplate, h2]
    rw [hsel]
    obtain ⟨hins, hlines, horig⟩ := insertOptions_inserts
      (useDefaultTemplate ({ b with n := n } : BatchSystemLauncher κ)) f r h3 h4 h5 h6
    refine ⟨_, hins, hlines, horig, ?_⟩
    unfold writeBatchScript
    rw [hsel]
    rw [if_pos (show ({ b with n := n } : BatchSystemLauncher κ).batch_template = ""
      from h1)]
    rw [hins, Option.some_bind]
  · intro h
    unfold insertOptionsInScript
    rw [if_neg]
    rcases h with h | h
    · intro hcon
      exact hcon.1 h
    · intro hcon
      rw [h] at hcon
      exact absurd hcon.2 (by decide)

/-- C5 amended witness: on `bDefaultQueue` (queue `gpu`, no user
template, default template `#!/bin/sh`, `#PBS -V`, `cmd`) the insertion
step yields lines first line, `#PBS -q ...` directive, original rest;
on `bQueuePresent` (directive already present) queue insertion changes
nothing. -/
theorem queue_insertion_default_template_witness :
    (∃ bq, insertOptionsInScript
        (useDefaultTemplate (selectTemplate { bDefaultQueue with n := 4 })) =
          some bq ∧
      splitLines bq.batch_template.data =
        "#!/bin/sh".data :: "#PBS -q {queue}".data ::
          splitLines "#PBS -V\ncmd".data ∧
      splitLines bDefaultQueue.default_template.data =
        "#!/bin/sh".data :: splitLines "#PBS -V\ncmd".data ∧
      writeBatchScript bDefaultQueue 4 = insertJobArrayInScript bq) ∧
    insertOptionsInScript bQueuePresent = some bQueuePresent := by
  constructor
  · exact (queue_insertion_default_template bDefaultQueue 4
      "#!/bin/sh".data "#PBS -V\ncmd".data).1 rfl rfl (by decide) rfl
      (by decide) (by decide)
  · exact (queue_insertion_default_template bQueuePresent 0 [] []).2
      (Or.inr rfl)

/-- C5 counterexample: `bUserQueue` has `queue="gpu"` and a (user
configured) effective batch template lacking a queue directive, yet
`write_batch_script` leaves the template unchanged — no queue directive
is inserted, because the insertion runs only when the user did not
specify a template. -/
theorem queue_insertion_skipped_for_user_template :
    (writeBatchScript bUserQueue 4).map (fun x => x.batch_template) =
      some "#!/bin/sh\nsleep 1" ∧
    bUserQueue.queue = "gpu" ∧
    bUserQueue.queue_regexp bUserQueue.batch_template = false := by
  refine ⟨rfl, rfl, rfl⟩

/-- C6 amended: when the job id cannot be parsed from the submit
command's output, `start` raises `LauncherError` to its caller; the
launcher's `BaseLauncher` half is exactly as before the call — in
particular it does *not* transition to `after`, and no stop notification
(stop payload or callback drain) happens. -/
theorem batchStart_unparseable_raises {κ : Type}
    (b b1 : BatchSystemLauncher κ) (n : Nat) (out : String)
    (hw : writeBatchScript b n = some b1)
    (hs : b1.job_id_search out = none) :
    BatchSystemLauncher.start b n out =
      some (b1, .error (.launcherError
        ("Job id couldn\x27t be determined: " ++ out))) ∧
    b1.base = b.base := by
  constructor
  · unfold BatchSystemLauncher.start
    rw [hw, Option.map_some']
    simp [parseJobId, hs]
  · exact writeBatchScript_base hw

/-- C6 amended witness: starting `bUserTemplate` when the submit output
is `abc` (no parseable job id) returns the `LauncherError` and leaves
the launcher's state machine untouched. -/
theorem batchStart_unparseable_raises_witness :
    BatchSystemLauncher.start bUserTemplate 1 "abc" =
      some (({ bUserTemplate with n := 1 } : BatchSystemLauncher Nat),
        .error (.launcherError ("Job id couldn\x27t be determined: " ++ "abc"))) ∧
    ({ bUserTemplate with n := 1 } : BatchSystemLauncher Nat).base =
      bUserTemplate.base := by
  exact batchStart_unparseable_raises bUserTemplate
    { bUserTemplate with n := 1 } 1 "abc" rfl rfl

/-- C6 counterexample: on the concrete launcher `bUserTemplate` with
submit output `no job here` (job-id regular expression finds no match),
`start` yields a `LauncherError` and the launcher stays in `before` —
it does not transition to `after` and no stop payload is recorded,
contrary to the claim. -/
theorem batchStart_unparseable_counterexample :
    (BatchSystemLauncher.start bUserTemplate 1 "no job here").map
        (fun p => (p.1.base.state, p.1.base.stop_data, p.2)) =
      some (LState.before, none,
        .error (.launcherError "Job id couldn\x27t be determined: no job here")) ∧
    LState.before ≠ LState.after := by
  constructor
  · rfl
  · decide

end IPyParallel
